import Mathlib

/-!
Shallow embedding of src/wayback.py (bash-hackers wiki Wayback mirror script)
and verification of the frozen claims about it.

Conventions of the embedding:
* Python strings are Lean `String`; character-level work goes through `String.toList`.
  The helpers prefixed `py` embed the corresponding Python string or list
  operations (split, join, startswith, lstrip, stem, ...) restricted to ASCII,
  which is all the program ever feeds them.
* The network is external: the outcome of the availability endpoint is the
  `AvailTransport` value handed to `get_url`, and the outcome of a page fetch is
  `Env.fetch`.  The lxml parser is external as well: a parsed page is an
  `HtmlDoc` (its elements in document order plus its serialization), produced by
  the collaborator `Env.parse`.
* The filesystem is an explicit `FS` state (files, directories, symlinks) and
  the writing functions are state transformers on it.
* A Python function that can raise is embedded in `Except String`, the error
  string naming the exception class.  Returning `None` where a caller tests
  truthiness is embedded as `Option`.
-/

/-! ## Python string helpers -/

/-- Embedding of Python `str.split(sep)` for a one-character separator:
splits at every occurrence and keeps empty parts. -/
def pySplit (sep : Char) : List Char → List (List Char)
  | [] => [[]]
  | c :: rest =>
    let r := pySplit sep rest
    if c = sep then [] :: r
    else (c :: r.headD []) :: r.tail

/-- Embedding of Python `sep.join(parts)` for a one-character separator. -/
def pyJoin (sep : Char) : List (List Char) → List Char
  | [] => []
  | [p] => p
  | p :: rest => p ++ sep :: pyJoin sep rest

/-- Split a string on a separator character, as Python `str.split`. -/
def pySplitStr (sep : Char) (s : String) : List String :=
  (pySplit sep s.toList).map String.mk

/-- Join strings with a separator character, as Python `str.join`. -/
def pyJoinStr (sep : Char) (parts : List String) : String :=
  String.mk (pyJoin sep (parts.map String.toList))

/-- Embedding of Python `str.startswith` on character lists. -/
def pyStartsWithL (l pre : List Char) : Bool :=
  l.take pre.length == pre

/-- Embedding of Python `str.startswith`. -/
def pyStartsWith (s pre : String) : Bool :=
  pyStartsWithL s.toList pre.toList

/-- Embedding of Python `str.lstrip` for a one-character strip set. -/
def pyLstrip (s : String) (c : Char) : String :=
  String.mk (s.toList.dropWhile (fun d => d = c))

/-- Position of the suffix dot of a file name, following CPython pathlib:
the last dot whose index is strictly positive and not last. -/
def pySuffixIdx (cs : List Char) : Option Nat :=
  ((List.range cs.length).filter
    (fun i => cs.getD i ' ' == '.' && decide (0 < i) && decide (i < cs.length - 1))).getLast?

/-- Embedding of `pathlib.PurePath.stem`: the final component without its suffix. -/
def pyStem (name : String) : String :=
  match pySuffixIdx name.toList with
  | some i => String.mk (name.toList.take i)
  | none => name

/-- Embedding of the truthiness test `pathlib.PurePath.suffix` used by
`HTML.export` (`not file_path.suffix`). -/
def pyHasSuffix (name : String) : Bool :=
  (pySuffixIdx name.toList).isSome

/-- A filesystem path relative to the working directory, as its segments.
`pathlib.Path(s)` on the relative slash-separated strings this program builds
amounts to splitting on the slash and dropping empty segments. -/
abbrev PathSegs := List String

/-- Embedding of `pathlib.Path(s)` for the relative paths this program builds. -/
def strToPath (s : String) : PathSegs :=
  (pySplitStr '/' s).filter (fun seg => seg ≠ "")

/-! ## Snapshot resolver (src/wayback.py lines 20-37) -/

/-- Embedding of `insert_id_` (lines 20-23): split the URL on the slash, append
`id_` to the fifth segment, join back.  Python raises IndexError when the URL
has fewer than five segments; that case is `none`. -/
def insert_id_ (url : String) : Option String :=
  let parts := pySplitStr '/' url
  if 4 < parts.length then
    some (pyJoinStr '/' (parts.set 4 (parts.getD 4 "" ++ "id_")))
  else none

/-- The `closest` snapshot record of the availability endpoint response
(availability flag, HTTP status after the `int(...)` conversion, snapshot
timestamp, replay URL), as consumed by `get_url` lines 33-37. -/
structure Closest where
  available : Bool
  status : Int
  timestamp : String
  url : String
deriving DecidableEq

/-- Outcome of `urllib.request.urlopen` on the availability endpoint plus the
JSON extraction of line 33: either the transport raised `URLError`, or it
produced the (possibly absent) `closest` snapshot record. -/
inductive AvailTransport where
  | urlError
  | ok (closest : Option Closest)

/-- Embedding of the response handling of `get_url` (lines 25-37).  The URL
building and the network call are summarized by the `AvailTransport` argument.
Line 32 performs the transport call with no surrounding try/except, so a
transport failure propagates as an exception (`Except.error`).  When the
`closest` record is absent or fails the `available and status == 200` test the
function falls through and returns Python `None` (`Except.ok none`); on success
it returns the `insert_id_`-transformed replay URL.  The strptime of line 35
only feeds logging and is not modelled. -/
def get_url (t : AvailTransport) : Except String (Option String) :=
  match t with
  | .urlError => .error "URLError"
  | .ok none => .ok none
  | .ok (some c) =>
    if c.available && c.status == 200 then
      match insert_id_ c.url with
      | some u => .ok (some u)
      | none => .error "IndexError"
    else .ok none

/-! ## Claims C3 and C10 -/

/-- Claim C3, counterexample: the claim states that `get_url` returns an
Unavailable result rather than raising in all three failure cases, including a
failing transport request; but a transport failure in the availability request
propagates as an uncaught exception (there is no try/except around line 32). -/
theorem c3_transport_raises :
    get_url AvailTransport.urlError = .error "URLError" ∧
    get_url AvailTransport.urlError ≠ .ok none :=
  ⟨rfl, fun h => nomatch h⟩

/-- Claim C3, amended: `get_url` returns an Unavailable result (Python `None`)
rather than raising when the endpoint returns no snapshot or a snapshot that is
not available or has a non-200 status, while a failure of the transport request
itself propagates as an exception. -/
theorem c3_unavailable_cases (c : Closest) :
    get_url (.ok none) = .ok none ∧
    (c.available = false → get_url (.ok (some c)) = .ok none) ∧
    (c.status ≠ 200 → get_url (.ok (some c)) = .ok none) ∧
    get_url AvailTransport.urlError = .error "URLError" := by
  refine ⟨rfl, fun h => ?_, fun h => ?_, rfl⟩
  · simp [get_url, h]
  · simp [get_url, beq_eq_false_iff_ne.mpr h]

/-- Witness for C3: a concrete non-200 snapshot is reported unavailable. -/
theorem c3_unavailable_cases_witness :
    get_url (.ok (some ⟨true, 404, "20230302000000", "u"⟩)) = .ok none :=
  (c3_unavailable_cases ⟨true, 404, "20230302000000", "u"⟩).2.2.1 (by decide)

/-- Claim C10: on a successful resolution (available flag true, HTTP status
200), `get_url` returns the archive URL transformed by appending `id_` to its
fifth slash-separated segment, which for a replay URL of the usual shape is the
timestamp segment, selecting the verbatim replay form. -/
theorem c10_replay_url_transformation (c : Closest) (host ts : String)
    (rest : List String)
    (hav : c.available = true) (hst : c.status = 200)
    (hurl : pySplitStr '/' c.url = ["https:", "", host, "web", ts] ++ rest) :
    get_url (.ok (some c)) =
      .ok (some (pyJoinStr '/' (["https:", "", host, "web", ts ++ "id_"] ++ rest))) := by
  have hcond : (c.available && c.status == 200) = true := by
    simp [hav, hst]
  have hins : insert_id_ c.url =
      some (pyJoinStr '/' (["https:", "", host, "web", ts ++ "id_"] ++ rest)) := by
    unfold insert_id_
    rw [hurl]
    simp [List.set]
  simp [get_url, hcond, hins]

/-- Witness for C10: the transformation on a concrete archived replay URL. -/
theorem c10_replay_url_transformation_witness :
    get_url (.ok (some ⟨true, 200, "20230302000000",
        "https://web.archive.org/web/20230302000000/https://wiki.bash-hackers.org/start"⟩)) =
      .ok (some (pyJoinStr '/' (["https:", "", "web.archive.org", "web", "20230302000000" ++ "id_"] ++
        ["https:", "", "wiki.bash-hackers.org", "start"]))) :=
  c10_replay_url_transformation _ "web.archive.org" "20230302000000"
    ["https:", "", "wiki.bash-hackers.org", "start"] rfl rfl (by decide)

/-! ## Content-graph extractor (src/wayback.py lines 96-100) -/

/-- Scanner for the regex `\[\[([:\/\-\w]+)` generalized over the character
class: at each position, a match requires two opening brackets followed by a
maximal nonempty run of class characters; the run is the captured group and
scanning resumes after it (re.findall is non-overlapping); on a failed position
scanning resumes one character later.  The fuel argument makes the recursion
structural; callers pass the input length plus one, which is enough because
every step consumes at least one character. -/
def scanMatches (cls : Char → Bool) : Nat → List Char → List (List Char)
  | 0, _ => []
  | _ + 1, [] => []
  | fuel + 1, c :: rest =>
    if c = '[' then
      match rest with
      | [] => []
      | c2 :: rest2 =>
        if c2 = '[' then
          let run := rest2.takeWhile cls
          if run.isEmpty then scanMatches cls fuel (c2 :: rest2)
          else run :: scanMatches cls fuel (rest2.drop run.length)
        else scanMatches cls fuel rest
    else scanMatches cls fuel rest

/-- Embedding of Python `str.replace(noBrack, slash)` restricted to the
one-character replacement the program performs: colon to slash. -/
def charRepl (c : Char) : Char :=
  if c = ':' then '/' else c

/-- The extraction pipeline of `MD.get_paths` lines 98-100 over a given match
character class: find the bracket-link matches, keep those that do not start
with `http`, replace colons by slashes in each. -/
def extractBracketLinks (cls : Char → Bool) (s : String) : List String :=
  let cs := s.toList
  let ms := scanMatches cls (cs.length + 1) cs
  (ms.filter (fun m => !(pyStartsWithL m ['h', 't', 't', 'p']))).map
    (fun m => String.mk (m.map charRepl))

/-- The character class of the source regex `[:\/\-\w]`: colon, slash, dash,
and word characters (letters, digits, underscore; the embedding is ASCII). -/
def wordLinkClass (c : Char) : Bool :=
  c == ':' || c == '/' || c == '-' || c.isAlphanum || c == '_'

/-- Modelled from the spec: the bracket-link path class as the spec words it,
letters, digits, dash, slash, colon - without the underscore that the source
class `\w` additionally matches. -/
def specLinkClass (c : Char) : Bool :=
  c.isAlphanum || c == '-' || c == '/' || c == ':'

namespace MD

/-- The dead-link list of class `MD` (src/wayback.py lines 83-87). -/
def DEAD_LINKS : List String :=
  ["commands/builtin/true", "commands/builtin/source", "commands/builtin/false",
   "commands/builtin/continueBreak", "commands/builtin/times", "commands/builtin/command",
   "dict/terms/file", "dict/terms/hardlink", "dict/terms/directory",
   "commands/builtin/alias", "commands/builtin/hash", "commands/builtin/fc",
   "commands/builtin/select", "commands/builtin/continuebreak"]

/-- Embedding of `MD.get_paths` (lines 96-100).  The source takes a file path
and reads it; the embedding takes the text that `path.read_text()` returns. -/
def get_paths (data : String) : List String :=
  extractBracketLinks wordLinkClass data

end MD

/-! ## Claim C7 -/

/-- Claim C7, counterexample: the source class `\w` also matches the
underscore, which the claim's class (letters, digits, dash, slash, colon)
omits; on `[[foo_bar]]` the code extracts `foo_bar` while the claim's pattern
would stop the match at the underscore and extract `foo`. -/
theorem c7_underscore_in_class :
    MD.get_paths "[[foo_bar]]" = ["foo_bar"] ∧
    extractBracketLinks specLinkClass "[[foo_bar]]" = ["foo"] ∧
    ("foo_bar" : String) ≠ "foo" := by
  refine ⟨by decide, by decide, by decide⟩

/-- Characters whose `charRepl` image avoids slash and colon pull back along
`List.map charRepl` to themselves. -/
theorem map_charRepl_eq_of_plain (target : List Char)
    (htarget : ∀ d ∈ target, d ≠ '/' ∧ d ≠ ':') :
    ∀ m : List Char, m.map charRepl = target → m = target := by
  induction target with
  | nil => intro m hm; simpa using hm
  | cons d ds ih =>
    intro m hm
    cases m with
    | nil => simp at hm
    | cons c m' =>
      simp only [List.map_cons, List.cons.injEq] at hm
      obtain ⟨hc, hm'⟩ := hm
      have hd := htarget d (by simp)
      have hcd : c = d := by
        by_cases h : c = ':'
        · subst h
          simp only [charRepl, if_pos rfl] at hc
          exact absurd hc.symm hd.1
        · simpa [charRepl, h] using hc
      have hm's := ih (fun d hd => htarget d (by simp [hd])) m' hm'
      simp [hcd, hm's]

/-- Claim C7, amended: `MD.get_paths` matches the bracket-link pattern
`[[<path>` where `<path>` consists of word characters (letters, digits,
underscore), dash, slash, colon; it substitutes colons with slashes in each
match and discards matches beginning with `http`; `[[commands:builtin:echo]]`
yields exactly `commands/builtin/echo`, `[[http://example.com]]` yields
nothing, and `[[foo_bar]]` yields `foo_bar`; no returned path contains a colon
or begins with `http`. -/
theorem c7_cross_reference_extraction (s : String) :
    MD.get_paths "[[commands:builtin:echo]]" = ["commands/builtin/echo"] ∧
    MD.get_paths "[[http://example.com]]" = [] ∧
    MD.get_paths "[[foo_bar]]" = ["foo_bar"] ∧
    ∀ p ∈ MD.get_paths s, ':' ∉ p.toList ∧ pyStartsWith p "http" = false := by
  refine ⟨by decide, by decide, by decide, ?_⟩
  intro p hp
  simp only [MD.get_paths, extractBracketLinks, List.mem_map, List.mem_filter] at hp
  obtain ⟨m, ⟨hm, hfilt⟩, hmk⟩ := hp
  constructor
  · rw [← hmk]
    intro hmem
    have : ':' ∈ m.map charRepl := by
      simpa [String.toList] using hmem
    obtain ⟨c, _, hc⟩ := List.mem_map.mp this
    by_cases h : c = ':' <;> simp [charRepl, h] at hc
  · rw [← hmk]
    have hfalse : pyStartsWithL m ['h', 't', 't', 'p'] = false := by
      simpa using hfilt
    unfold pyStartsWith
    by_contra hcon
    rw [Bool.not_eq_false] at hcon
    have htake : (m.map charRepl).take 4 = ['h', 't', 't', 'p'] := by
      have : ((String.mk (m.map charRepl)).toList.take
          ("http".toList.length) == "http".toList) = true := hcon
      simpa [pyStartsWithL, String.toList] using this
    have hmt : (m.take 4).map charRepl = ['h', 't', 't', 'p'] := by
      rw [List.map_take]; exact htake
    have hm4 : m.take 4 = ['h', 't', 't', 'p'] :=
      map_charRepl_eq_of_plain _ (by decide) _ hmt
    rw [pyStartsWithL] at hfalse
    simp [String.toList] at hfalse
    exact hfalse (by simpa using hm4)

/-- Witness for C7: the invariants evaluated at a concrete document text. -/
theorem c7_cross_reference_extraction_witness :
    ':' ∉ "commands/builtin/echo".toList ∧
      pyStartsWith "commands/builtin/echo" "http" = false :=
  (c7_cross_reference_extraction "[[commands:builtin:echo]]").2.2.2
    "commands/builtin/echo" (by decide)

/-! ## Parsed documents (the lxml collaborator) -/

/-- One markup element of a parsed page: tag name, attribute map, and the
element text, as exposed by lxml (`element.attrib`, `element.text`). -/
structure HtmlElement where
  tag : String
  attrs : List (String × String)
  text : Option String
deriving DecidableEq

/-- A page parsed by `lxml.html.fromstring`: its elements in document order
(which is how `cssselect` enumerates them) together with the serialization
that `lxml.html.tostring` would produce for it.  Parsing itself is an external
collaborator of the program, provided by `Env.parse`. -/
structure HtmlDoc where
  elements : List HtmlElement
  serialized : String
deriving DecidableEq

/-- Embedding of `cssselect` for a bare tag selector: every element with that
tag, in document order. -/
def cssTag (doc : HtmlDoc) (t : String) : List HtmlElement :=
  doc.elements.filter (fun e => e.tag == t)

namespace MD

/-- Embedding of `MD.get_data` (src/wayback.py lines 89-94) on the parsed
page: when the page has a textarea whose first occurrence carries truthy text,
the source asserts that the textarea is unique (AssertionError otherwise) and
returns its text; otherwise it returns the serialized document. -/
def get_data (doc : HtmlDoc) : Except String String :=
  let tas := cssTag doc "textarea"
  match tas.head? with
  | none => .ok doc.serialized
  | some e =>
    match e.text with
    | none => .ok doc.serialized
    | some t =>
      if t == "" then .ok doc.serialized
      else if tas.length == 1 then .ok t
      else .error "AssertionError"

end MD

/-! ## Structural extractor (src/wayback.py lines 118-124) -/

/-- Embedding of `urllib.parse.urlparse(s).path` for the scheme-less values
this program feeds it (attribute values beginning with a slash): the fragment
is split off at the first hash sign, then the query at the first question
mark; a leading double slash delimits a network location reaching to the next
slash; parameters are split off at the first semicolon of the last path
segment. -/
def urlparsePath (s : String) : String :=
  let cs1 := s.toList.takeWhile (fun c => c != '#')
  let cs2 := cs1.takeWhile (fun c => c != '?')
  let cs3 := if cs2.take 2 = ['/', '/'] then (cs2.drop 2).dropWhile (fun c => c != '/') else cs2
  let segs := pySplit '/' cs3
  String.mk (pyJoin '/' (segs.dropLast ++ [(segs.getLastD []).takeWhile (fun c => c != ';')]))

/-- The two set comprehensions of `HTML.get_paths` lines 122-123, over a tag
list and an attribute name: for each listed tag, every element of that tag
carrying the attribute whose value starts with a slash contributes the value
resolved as a URL path with leading slashes stripped. -/
def linkTargets (doc : HtmlDoc) (tags : List String) (attr : String) : List String :=
  (tags.flatMap (fun t =>
      doc.elements.filter (fun e => e.tag == t && (e.attrs.lookup attr).isSome))).filterMap
    (fun e => (e.attrs.lookup attr).bind
      (fun v => if pyStartsWith v "/" then some (pyLstrip (urlparsePath v) '/') else none))

namespace HTML

/-- The dead-link list of class `HTML` (src/wayback.py line 118). -/
def DEAD_LINKS : List String :=
  ["pagead/js/adsbygoogle.js", "dict/terms/exit_code", "dict/terms/filename",
   "dict/terms/ctime", "dict/terms/positional_parameter", "dict/start",
   "dict/terms/atime", "dict/terms/variable", "dict/terms/shebang",
   "dict/terms/return_status"]

/-- Embedding of `HTML.get_paths` (lines 120-124) on the parsed page: the
union of the href targets of anchor and link elements and the src targets of
script and image elements.  The two Python sets and their union are embedded
as a deduplicated list. -/
def get_paths (doc : HtmlDoc) : List String :=
  let href := linkTargets doc ["a", "link"] "href"
  let src := linkTargets doc ["script", "img"] "src"
  (href ++ src).dedup

end HTML

/-- Membership characterization of one `linkTargets` comprehension. -/
theorem mem_linkTargets {doc : HtmlDoc} {tags : List String} {attr p : String} :
    p ∈ linkTargets doc tags attr ↔
      ∃ e ∈ doc.elements, e.tag ∈ tags ∧
        ∃ v, e.attrs.lookup attr = some v ∧ pyStartsWith v "/" = true ∧
          p = pyLstrip (urlparsePath v) '/' := by
  simp only [linkTargets, List.mem_filterMap, List.mem_flatMap, List.mem_filter,
    Bool.and_eq_true, beq_iff_eq, Option.isSome_iff_exists, Option.bind_eq_some]
  constructor
  · rintro ⟨e, ⟨t, ht, he, htag, v0, hv0⟩, v, hv, hif⟩
    by_cases hsw : pyStartsWith v "/" = true
    · rw [if_pos hsw] at hif
      exact ⟨e, he, htag ▸ ht, v, hv, hsw, (Option.some.injEq _ _ ▸ hif).symm⟩
    · rw [if_neg hsw] at hif
      exact absurd hif (by simp)
  · rintro ⟨e, he, htag, v, hv, hsw, hp⟩
    exact ⟨e, ⟨e.tag, htag, he, rfl, v, hv⟩, v, hv, by rw [if_pos hsw, hp]⟩

/-! ## Claims C6 (counterexample) and C8 -/

/-- A parsed page holding two textarea elements, both with text. -/
def docTwoTextareas : HtmlDoc :=
  ⟨[⟨"textarea", [], some "first"⟩, ⟨"textarea", [], some "second"⟩], "full-document"⟩

/-- Claim C6, counterexample: on a page that does not contain a single
textarea with text but two of them, the claim prescribes the full serialized
document, while `MD.get_data` raises AssertionError (the assert on line 92). -/
theorem c6_two_textareas_raise :
    MD.get_data docTwoTextareas = .error "AssertionError" ∧
    MD.get_data docTwoTextareas ≠ .ok docTwoTextareas.serialized ∧
    (cssTag docTwoTextareas "textarea").length = 2 := by
  refine ⟨rfl, ?_, by decide⟩
  intro h
  rw [show MD.get_data docTwoTextareas = .error "AssertionError" from rfl] at h
  exact Except.noConfusion h

/-- Claim C8: a path is returned by the structural extractor `HTML.get_paths`
exactly when some anchor or link element carries an href value, or some script
or image element carries a src value, that begins with a root-relative slash
(absolute external URLs and fragment-only links are thereby excluded) and
resolves as a URL path to the given path once leading slashes are stripped;
the result is deduplicated. -/
theorem c8_structural_extraction (doc : HtmlDoc) (p : String) :
    (p ∈ HTML.get_paths doc ↔
      ((∃ e ∈ doc.elements, (e.tag = "a" ∨ e.tag = "link") ∧
          ∃ v, e.attrs.lookup "href" = some v ∧ pyStartsWith v "/" = true ∧
            p = pyLstrip (urlparsePath v) '/') ∨
       (∃ e ∈ doc.elements, (e.tag = "script" ∨ e.tag = "img") ∧
          ∃ v, e.attrs.lookup "src" = some v ∧ pyStartsWith v "/" = true ∧
            p = pyLstrip (urlparsePath v) '/'))) ∧
    (HTML.get_paths doc).Nodup := by
  constructor
  · unfold HTML.get_paths
    rw [List.mem_dedup, List.mem_append, mem_linkTargets, mem_linkTargets]
    simp [List.mem_cons]
  · exact List.nodup_dedup _

/-- Witness for C8: the characterization applied to a concrete page with one
anchor element. -/
theorem c8_structural_extraction_witness :
    "dict/start" ∈ HTML.get_paths ⟨[⟨"a", [("href", "/dict/start")], none⟩], ""⟩ :=
  (c8_structural_extraction ⟨[⟨"a", [("href", "/dict/start")], none⟩], ""⟩ "dict/start").1.mpr
    (Or.inl ⟨⟨"a", [("href", "/dict/start")], none⟩, by simp, Or.inl rfl,
      "/dict/start", by decide, by decide, by decide⟩)

/-! ## Filesystem state and the content materializer (src/wayback.py lines 51-63) -/

/-- A fetched body: decoded text or raw bytes, mirroring the `str|bytes`
return of `get_response` and the two `isinstance` branches of `write`. -/
inductive Content where
  | text (s : String)
  | bytes (b : List Nat)
deriving DecidableEq

/-- The tree under the working directory: regular files with their content,
directories, and symbolic links with their target.  Association is by the
first matching entry, and the update operations below keep at most one entry
per path. -/
structure FS where
  files : List (PathSegs × Content)
  dirs : List PathSegs
  symlinks : List (PathSegs × PathSegs)
deriving DecidableEq

/-- Embedding of `pathlib.Path.is_file`. -/
def FS.isFile (fs : FS) (p : PathSegs) : Bool :=
  (fs.files.lookup p).isSome

/-- A directory exists if it was recorded, or implicitly as a strict ancestor
of an existing file (the way a real tree materializes parents). -/
def FS.isDir (fs : FS) (p : PathSegs) : Bool :=
  fs.dirs.contains p ||
    fs.files.any (fun e => List.isPrefixOf p e.1 && decide (p ≠ e.1))

/-- Embedding of `pathlib.Path.exists` (which follows symbolic links; the
program only ever creates the one-level `index.html` link). -/
def FS.pathExists (fs : FS) (p : PathSegs) : Bool :=
  fs.isFile p || fs.isDir p ||
    (match fs.symlinks.lookup p with
     | some t => fs.isFile t || fs.isDir t
     | none => false)

/-- Existence without following links, as `symlink_to` tests its own path. -/
def FS.lexists (fs : FS) (p : PathSegs) : Bool :=
  fs.isFile p || fs.isDir p || (fs.symlinks.lookup p).isSome

/-- Write a file, replacing any previous content at the same path
(`Path.write_text` / `Path.write_bytes` truncate). -/
def FS.setFile (fs : FS) (p : PathSegs) (c : Content) : FS :=
  { fs with files := (p, c) :: fs.files.filter (fun e => decide (e.1 ≠ p)) }

/-- Embedding of `pathlib.Path.rename`: move the file entry, replacing any
entry at the destination. -/
def FS.renameFile (fs : FS) (src dst : PathSegs) : FS :=
  match fs.files.lookup src with
  | some c =>
    { fs with files :=
        (dst, c) :: fs.files.filter (fun e => decide (e.1 ≠ src) && decide (e.1 ≠ dst)) }
  | none => fs

/-- The nonempty prefixes of a path, innermost last. -/
def prefixesOf (p : PathSegs) : List PathSegs :=
  (List.range p.length).map (fun i => p.take (i + 1))

/-- Embedding of `Path.mkdir(exist_ok=True, parents=True)`: record the
directory and every ancestor.  The failure modes of mkdir (a file standing at
the directory path) are never reached on the traces the claims exercise and
are not modelled. -/
def FS.mkdirParents (fs : FS) (p : PathSegs) : FS :=
  { fs with dirs := prefixesOf p ++ fs.dirs }

/-- Embedding of `rename_if_collision` (lines 51-55).  When the parent of the
requested file path is itself an existing file, that parent is renamed to
`_<stem>` one level up.  The source then reassigns the result of `rename` -
the new path of the renamed parent - to `file`, so the returned write target
is the renamed parent path, not the requested file path. -/
def rename_if_collision (fs : FS) (file : PathSegs) : FS × PathSegs :=
  if fs.isFile file.dropLast then
    let target := file.dropLast.dropLast ++ ["_" ++ pyStem (file.dropLast.getLastD "")]
    (fs.renameFile file.dropLast target, target)
  else (fs, file)

/-- Embedding of `write` (lines 57-63): collision handling, parent directory
creation, then the text or bytes write - all three on the path that
`rename_if_collision` returned. -/
def write (fs : FS) (file : PathSegs) (response : Content) : FS :=
  let rc := rename_if_collision fs file
  let fs2 := rc.1.mkdirParents rc.2.dropLast
  fs2.setFile rc.2 response

/-! ## Claim C1 -/

/-- A tree holding one file `a/b` with content `C`. -/
def fsCollision : FS :=
  ⟨[(["a", "b"], .text "C")], [["a"]], []⟩

/-- Claim C1, evaluation at the failing input: with a file `a/b` holding `C`,
materializing logical path `a/b/c` with new content `D` renames `a/b` to
`a/_b` but then writes `D` over `a/_b` (the reassignment on line 54 makes the
renamed parent the write target), never creates `a/b/c`, and the original
content `C` survives nowhere - the claim instead requires `a/_b` to hold `C`
and `a/b/c` to hold `D`. -/
theorem c1_collision_data_loss :
    (write fsCollision ["a", "b", "c"] (.text "D")).files.lookup ["a", "_b"] =
      some (.text "D") ∧
    (write fsCollision ["a", "b", "c"] (.text "D")).files.lookup ["a", "b", "c"] = none ∧
    (write fsCollision ["a", "b", "c"] (.text "D")).files.all
      (fun e => decide (e.2 ≠ .text "C")) = true := by
  refine ⟨by decide, by decide, by decide⟩

/-! ## Fetch collaborator and export_path (src/wayback.py lines 39-49, 65-78) -/

/-- The external collaborators of one run: the availability endpoint outcome
per logical path and URL suffix (consumed by `get_url`), the fetch outcome per
replay URL (`get_response`, whose URLError handler returns Python `None`,
embedded as `none`), and the lxml parser. -/
structure Env where
  resolve : String → Option String → AvailTransport
  fetch : String → Option Content
  parse : Content → HtmlDoc

/-- Python truthiness of a fetched body: the empty string and the empty byte
string are falsy (`if not response`). -/
def contentFalsy : Content → Bool
  | .text s => s == ""
  | .bytes b => b.isEmpty

/-- The write target of `export_path` lines 74-76: the logical path, with the
file suffix appended to the final segment when one is given. -/
def targetFile (path : String) (file_suffix : Option String) : PathSegs :=
  let file := strToPath path
  match file_suffix with
  | some sfx => file.dropLast ++ [file.getLastD "" ++ "." ++ sfx]
  | none => file

/-- Embedding of `export_path` (lines 65-78): resolve the snapshot (skipping
with a logged error when no URL is available), fetch it (skipping on a missing
or falsy body), pass the body through `MD.get_data` when the file suffix is
the content-graph marker, and write.  The returned path is the computed target
path (the write may land elsewhere after a collision rename); `none` stands
for the logged-skip returns of lines 68 and 71. -/
def export_path (env : Env) (fs : FS) (path : String) (url_suffix : Option String)
    (file_suffix : Option String) : Except String (FS × Option PathSegs) :=
  match get_url (env.resolve path url_suffix) with
  | .error e => .error e
  | .ok none => .ok (fs, none)
  | .ok (some url) =>
    match env.fetch url with
    | none => .ok (fs, none)
    | some response =>
      if contentFalsy response then .ok (fs, none)
      else
        let data : Except String Content :=
          if file_suffix == some "md" then
            (MD.get_data (env.parse response)).map Content.text
          else .ok response
        match data with
        | .error e => .error e
        | .ok response2 =>
          let file := targetFile path file_suffix
          .ok (write fs file response2, some file)

/-! ## Convergence drivers (src/wayback.py lines 102-113, 126-150, 153-155) -/

/-- Text content of a file, as `Path.read_text` returns it. -/
def FS.readText (fs : FS) (p : PathSegs) : String :=
  match fs.files.lookup p with
  | some (.text s) => s
  | _ => ""

/-- Raw content of a file, fed to the parser collaborator. -/
def FS.fileContent (fs : FS) (p : PathSegs) : Content :=
  (fs.files.lookup p).getD (.text "")

/-- Whether a file name matches the glob pattern `*.md`: any name ending in
`.md` (pathlib globbing matches dot-prefixed names too, so hidden files are
scanned like any other). -/
def globStarMd (name : String) : Bool :=
  let cs := name.toList
  decide (cs.drop (cs.length - 3) = ['.', 'm', 'd'])

/-- Run a list of materializations in order, threading the tree, as the for
loops of `MD.export` and `HTML.export` do (the fixed sleeps are wall-clock
only and leave no trace in the state). -/
def exportEach (env : Env) (url_suffix file_suffix : Option String)
    (paths : List String) (fs : FS) : Except String FS :=
  paths.foldlM (fun acc p => (export_path env acc p url_suffix file_suffix).map Prod.fst) fs

namespace MD

/-- The frontier of one content-kind pass (the dict comprehension of line
103): every cross-reference extracted from any `*.md` file under the tree
whose `.md`-suffixed path does not exist yet.  The dict keys collapse
duplicates; the embedding deduplicates the list, and the claims below depend
only on membership.  The `DEAD_LINKS` list does not occur in the source
comprehension. -/
def unexported (fs : FS) : List String :=
  (((fs.files.map Prod.fst).filter (fun p => globStarMd (p.getLastD ""))).flatMap
    (fun f => (get_paths (fs.readText f)).filter
      (fun p => !(fs.pathExists (strToPath (p ++ ".md")))))).dedup

/-- Embedding of `MD.export` (lines 102-108): one pass, materializing every
frontier path with the edit-view URL suffix and the `md` file suffix.  An
empty frontier only logs a warning, leaving the tree unchanged. -/
def exportPass (env : Env) (fs : FS) : Except String FS :=
  exportEach env (some "?do=edit") (some "md") (unexported fs) fs

/-- Embedding of `MD.export_all` (lines 110-113): seed with the start page in
edit view, then two unconditional passes. -/
def export_all (env : Env) (fs : FS) : Except String FS :=
  (export_path env fs "start" (some "?do=edit") (some "md")).bind (fun seeded =>
    (exportPass env seeded.1).bind (fun fs2 => exportPass env fs2))

end MD

namespace HTML

/-- The frontier of one structural-kind pass (the dict comprehension of line
128): every structural link extracted from any suffix-less file whose path
does not exist yet and does not start with `_export`.  The sort of line 127
only fixes iteration order and the dict keys collapse duplicates; the claims
below depend only on membership.  The `DEAD_LINKS` list does not occur in the
source comprehension. -/
def unexported (env : Env) (fs : FS) : List String :=
  (((fs.files.map Prod.fst).filter (fun p => !(pyHasSuffix (p.getLastD "")))).flatMap
    (fun f => (get_paths (env.parse (fs.fileContent f))).filter
      (fun p => !(fs.pathExists (strToPath p)) && !(pyStartsWith p "_export")))).dedup

/-- Embedding of `HTML.export` (lines 126-132): one pass, materializing every
frontier path with no URL suffix and no file suffix. -/
def exportPass (env : Env) (fs : FS) : Except String FS :=
  exportEach env none none (unexported env fs) fs

end HTML

/-- Iterate a pass a fixed number of times, as the comprehension
`[HTML.export() for _ in range(5)]` and the two sequential `MD.export()`
calls do. -/
def runPasses (f : FS → Except String FS) : Nat → FS → Except String FS
  | 0, fs => .ok fs
  | n + 1, fs => (f fs).bind (runPasses f n)

/-- Modelled from the spec: run structural passes until the frontier is
empty, bounded defensively at the given pass count (spec section 4.5, steps
4-6 and the five-pass bound). -/
def untilEmptyBounded (env : Env) : Nat → FS → Except String FS
  | 0, fs => .ok fs
  | n + 1, fs =>
    if HTML.unexported env fs = [] then .ok fs
    else (HTML.exportPass env fs).bind (untilEmptyBounded env n)

/-- Embedding of `pathlib.Path(str1).symlink_to(start_file)` on line 148:
fails with TypeError when the seed returned Python `None`, fails with
FileExistsError when something already stands at `index.html`, otherwise
records the link. -/
def symlink_index (fs : FS) (target : Option PathSegs) : Except String FS :=
  match target with
  | none => .error "TypeError"
  | some t =>
    if fs.lexists ["index.html"] then .error "FileExistsError"
    else .ok { fs with symlinks := (["index.html"], t) :: fs.symlinks }

/-- Embedding of Python `list.index` (first occurrence; callers guard
membership, matching the ValueError contract). -/
def pyListIndex (target : String) : List String → Nat
  | [] => 0
  | x :: rest => if x = target then 0 else pyListIndex target rest + 1

/-- Embedding of `readlines`: split into lines, each keeping its newline. -/
def linesKeepNL (s : String) : List String :=
  let r := s.toList.foldl
    (fun (acc : List String × List Char) c =>
      if c = '\n' then ((String.mk (acc.2 ++ [c])) :: acc.1, [])
      else (acc.1, acc.2 ++ [c]))
    ([], [])
  (if r.2.isEmpty then r.1 else String.mk r.2 :: r.1).reverse

/-- The page-tools rewrite of one file (lines 138-144): files without the
opening marker line are left alone; otherwise the opening marker line is
rewritten to an unterminated comment opener and the closing marker line to a
bare comment closer (ValueError when the closing marker is missing).  Reading
a bytes file in text mode would fail to decode. -/
def comment_out_content : Content → Except String Content
  | .bytes _ => .error "UnicodeDecodeError"
  | .text s =>
    let ls := linesKeepNL s
    if !(ls.contains "<!-- page-tools -->\n") then .ok (.text s)
    else
      let ls2 := ls.set (pyListIndex "<!-- page-tools -->\n" ls) "<!-- page-tools\n"
      if !(ls2.contains "<!-- /page-tools -->\n") then .error "ValueError"
      else
        .ok (.text (String.join
          (ls2.set (pyListIndex "<!-- /page-tools -->\n" ls2) "/page-tools -->\n")))

/-- Embedding of `HTML.comment_out_menu_tools` (lines 134-144): rewrite the
page-tools marker block of every file whose name has no dot. -/
def comment_out_menu_tools (fs : FS) : Except String FS :=
  ((fs.files.map Prod.fst).filter
      (fun p => !((p.getLastD "").toList.contains '.'))).foldlM
    (fun acc f =>
      match acc.files.lookup f with
      | some c => (comment_out_content c).map (fun c2 => acc.setFile f c2)
      | none => .ok acc)
    fs

namespace HTML

/-- The declared parameter list of `HTML.export_all` (line 146): a plain
instance parameter, with no staticmethod decorator. -/
def export_all_params : List String := ["self"]

/-- Embedding of the body of `HTML.export_all` (lines 146-150): seed with the
start page, symlink `index.html` to it, run five unconditional passes, then
run the page-tools sweep. -/
def export_all (env : Env) (fs : FS) : Except String FS :=
  (export_path env fs "start" none none).bind (fun seeded =>
    (symlink_index seeded.1 seeded.2).bind (fun fs1 =>
      (runPasses (exportPass env) 5 fs1).bind (fun fs2 =>
        comment_out_menu_tools fs2)))

end HTML

/-- Embedding of CPython call semantics for the zero-argument call of a
function accessed through its class (Python 3 has no unbound-method binding):
argument binding precedes the body, and a positional parameter left without an
argument raises TypeError before the body runs. -/
def classCallNoArgs (params : List String) (body : FS → Except String FS)
    (fs : FS) : Except String FS :=
  if params.isEmpty then body fs
  else .error "TypeError: missing required positional argument"

/-- Embedding of `main` (lines 153-155): `HTML.export_all()` called through
the class with no argument, then `MD.export_all()`.  (The source name `main`
is reserved by Lean for executables.) -/
def mainEntry (env : Env) (fs : FS) : Except String FS :=
  (classCallNoArgs HTML.export_all_params (HTML.export_all env) fs).bind
    (MD.export_all env)

/-! ## Claims C2 and C4 -/

/-- A tree holding one content document whose only cross-reference is the
dead-link-listed path `commands/builtin/true`. -/
def fsDeadLinkMd : FS :=
  ⟨[(["x.md"], .text "[[commands:builtin:true]]")], [], []⟩

/-- Collaborators under which the only structural document parses to a single
anchor pointing at the dead-link-listed path `dict/start`. -/
def envDeadLinkHtml : Env :=
  ⟨fun _ _ => .ok none, fun _ => none,
   fun _ => ⟨[⟨"a", [("href", "/dict/start")], none⟩], ""⟩⟩

/-- A tree holding one suffix-less structural document. -/
def fsDeadLinkHtml : FS :=
  ⟨[(["page"], .text "page-body")], [], []⟩

/-- Claim C2, evaluation at the failing input: neither frontier comprehension
consults its `DEAD_LINKS` list, so a tree whose every referenced path is
dead-link-listed still yields a nonempty frontier for both kinds - each pass
then materializes those paths instead of performing zero materializations. -/
theorem c2_dead_links_not_excluded :
    MD.unexported fsDeadLinkMd = ["commands/builtin/true"] ∧
    "commands/builtin/true" ∈ MD.DEAD_LINKS ∧
    HTML.unexported envDeadLinkHtml fsDeadLinkHtml = ["dict/start"] ∧
    "dict/start" ∈ HTML.DEAD_LINKS := by
  refine ⟨by decide, by decide, by decide, by decide⟩

/-- Claim C4: `main` calls `HTML.export_all` through the class without an
instance even though `export_all` declares the instance parameter `self`, so
every invocation raises the missing-argument TypeError during argument
binding, before any node is materialized (the returned state carries no tree). -/
theorem c4_main_missing_self (env : Env) (fs : FS) :
    mainEntry env fs = .error "TypeError: missing required positional argument" ∧
    HTML.export_all_params = ["self"] :=
  ⟨rfl, rfl⟩

/-! ## Claim C5 -/

/-- An empty structural frontier makes the pass a no-op on the tree. -/
theorem html_exportPass_of_empty (env : Env) (fs : FS)
    (h : HTML.unexported env fs = []) : HTML.exportPass env fs = .ok fs := by
  rw [HTML.exportPass, h]; rfl

/-- Running a fixed number of structural passes equals running until the
frontier is empty with the same bound: a pass over an empty frontier changes
nothing, so the trailing passes of the unconditional loop are no-ops. -/
theorem runPasses_eq_untilEmptyBounded (env : Env) :
    ∀ (n : Nat) (fs : FS),
      runPasses (HTML.exportPass env) n fs = untilEmptyBounded env n fs := by
  intro n
  induction n with
  | zero => intro fs; rfl
  | succ n ih =>
    intro fs
    by_cases h : HTML.unexported env fs = []
    · have hp := html_exportPass_of_empty env fs h
      show (HTML.exportPass env fs).bind (runPasses (HTML.exportPass env) n) =
        untilEmptyBounded env (n + 1) fs
      rw [hp]
      show runPasses (HTML.exportPass env) n fs = untilEmptyBounded env (n + 1) fs
      rw [ih fs]
      have hn : untilEmptyBounded env n fs = .ok fs := by
        cases n with
        | zero => rfl
        | succ m =>
          show (if HTML.unexported env fs = [] then _ else _) = _
          rw [if_pos h]
      rw [hn]
      show Except.ok fs = (if HTML.unexported env fs = [] then Except.ok fs else _)
      rw [if_pos h]
    · show (HTML.exportPass env fs).bind (runPasses (HTML.exportPass env) n) =
        untilEmptyBounded env (n + 1) fs
      have : untilEmptyBounded env (n + 1) fs =
          (HTML.exportPass env fs).bind (untilEmptyBounded env n) := by
        show (if HTML.unexported env fs = [] then _ else _) = _
        rw [if_neg h]
      rw [this]
      cases HTML.exportPass env fs with
      | error e => rfl
      | ok fs2 => exact ih fs2

/-- Two sequential applications of a pass are the two-bounded iteration. -/
theorem two_passes (f : FS → Except String FS) (fs : FS) :
    (f fs).bind f = runPasses f 2 fs := by
  show (f fs).bind f = (f fs).bind (runPasses f 1)
  cases f fs with
  | error e => rfl
  | ok fs2 =>
    show f fs2 = (f fs2).bind (runPasses f 0)
    cases f fs2 with
    | error e => rfl
    | ok fs3 => rfl

/-- Claim C5: after seeding with the start page, the content-kind driver runs
exactly two passes unconditionally; the structural-kind driver, whose loop
body is five unconditional passes, is extensionally the run-until-the-
frontier-is-empty loop bounded at five passes, because a pass over an empty
frontier leaves the tree unchanged. -/
theorem c5_pass_bounds (env : Env) (fs : FS) :
    MD.export_all env fs =
      (export_path env fs "start" (some "?do=edit") (some "md")).bind
        (fun seeded => runPasses (MD.exportPass env) 2 seeded.1) ∧
    runPasses (HTML.exportPass env) 5 fs = untilEmptyBounded env 5 fs ∧
    HTML.export_all env fs =
      (export_path env fs "start" none none).bind (fun seeded =>
        (symlink_index seeded.1 seeded.2).bind (fun fs1 =>
          (untilEmptyBounded env 5 fs1).bind (fun fs2 =>
            comment_out_menu_tools fs2))) := by
  refine ⟨?_, runPasses_eq_untilEmptyBounded env 5 fs, ?_⟩
  · rw [MD.export_all]
    cases export_path env fs "start" (some "?do=edit") (some "md") with
    | error e => rfl
    | ok seeded =>
      show (MD.exportPass env seeded.1).bind (MD.exportPass env) =
        runPasses (MD.exportPass env) 2 seeded.1
      exact two_passes (MD.exportPass env) seeded.1
  · rw [HTML.export_all]
    cases export_path env fs "start" none none with
    | error e => rfl
    | ok seeded =>
      show (symlink_index seeded.1 seeded.2).bind _ =
        (symlink_index seeded.1 seeded.2).bind _
      cases symlink_index seeded.1 seeded.2 with
      | error e => rfl
      | ok fs1 =>
        show (runPasses (HTML.exportPass env) 5 fs1).bind _ =
          (untilEmptyBounded env 5 fs1).bind _
        rw [runPasses_eq_untilEmptyBounded env 5 fs1]

/-! ## Claims C6 (amended) and C9 -/

/-- Claim C6, amended: when the parsed page contains at least one textarea
and the first one carries nonempty text, `MD.get_data` asserts the textarea
is unique - returning exactly its text when it is, raising AssertionError
when it is not - and in every other case (no textarea, or a first textarea
without text) returns the full serialized document; `export_path` applies
this transformation to the fetched body before writing whenever the file
suffix equals the content-graph marker `md`. -/
theorem c6_text_extraction (doc : HtmlDoc) (env : Env) (fs : FS)
    (path url : String) (us : Option String) (r : Content)
    (e : HtmlElement) (t : String) :
    (cssTag doc "textarea" = [e] → e.text = some t → t ≠ "" →
      MD.get_data doc = .ok t) ∧
    (cssTag doc "textarea" = [] → MD.get_data doc = .ok doc.serialized) ∧
    ((cssTag doc "textarea").head? = some e → e.text = none ∨ e.text = some "" →
      MD.get_data doc = .ok doc.serialized) ∧
    ((cssTag doc "textarea").head? = some e → e.text = some t → t ≠ "" →
      (cssTag doc "textarea").length ≠ 1 → MD.get_data doc = .error "AssertionError") ∧
    (get_url (env.resolve path us) = .ok (some url) → env.fetch url = some r →
      contentFalsy r = false →
      export_path env fs path us (some "md") =
        (MD.get_data (env.parse r)).bind (fun s =>
          .ok (write fs (targetFile path (some "md")) (.text s),
               some (targetFile path (some "md"))))) := by
  refine ⟨?_, ?_, ?_, ?_, ?_⟩
  · intro h het hne
    simp [MD.get_data, h, het, hne]
  · intro h
    simp [MD.get_data, h]
  · intro hhead htext
    cases htext with
    | inl hn => simp [MD.get_data, hhead, hn]
    | inr hs => simp [MD.get_data, hhead, hs]
  · intro hhead het hne hlen
    simp [MD.get_data, hhead, het, hne, hlen]
  · intro h1 h2 h3
    cases hgd : MD.get_data (env.parse r) with
    | error e2 => simp [export_path, h1, h2, h3, hgd, Except.map, Except.bind]
    | ok s => simp [export_path, h1, h2, h3, hgd, Except.map, Except.bind]

/-- Collaborators for the C6 witness: the resolver succeeds, the fetch
returns a wrapped page, and the parser sees a single textarea with text. -/
def envSingleTextarea : Env :=
  ⟨fun _ _ => .ok (some ⟨true, 200, "20230302000000", "a/b/c/d/e"⟩),
   fun _ => some (.text "wrapped-page"),
   fun _ => ⟨[⟨"textarea", [], some "raw-markup"⟩], "serialized-page"⟩⟩

/-- Witness for C6: the md branch of `export_path` writes the extracted
textarea text on a concrete run. -/
theorem c6_text_extraction_witness :
    export_path envSingleTextarea ⟨[], [], []⟩ "p" none (some "md") =
      (MD.get_data (envSingleTextarea.parse (.text "wrapped-page"))).bind (fun s =>
        .ok (write ⟨[], [], []⟩ (targetFile "p" (some "md")) (.text s),
             some (targetFile "p" (some "md")))) :=
  (c6_text_extraction ⟨[], ""⟩ envSingleTextarea ⟨[], [], []⟩ "p" "a/b/c/d/eid_"
    none (.text "wrapped-page") ⟨"", [], none⟩ "").2.2.2.2 rfl rfl rfl

